import Mathlib

/-!
# Verification of the CensusGUI security managers

Shallow embedding of the database-backed security operations of the
CensusGUI backend:

* `SecurityManager.check_rate_limit` / `get_rate_limit_status`
  (`security_manager.py`): endpoint throttling over `throttle_rules`
  and `throttle_log`.
* `UserManager.verify_user` / `activate_user` (`user_manager.py`):
  credential verification with failed-attempt lockout, and activation
  token consumption.
* `SessionManager.verify_session` / `invalidate_session`
  (`session_manager.py`): fingerprinted session validation and logout.

The database tables are modelled as lists of rows; timestamps are `Int`
seconds; `bcrypt.checkpw` is abstracted as a boolean parameter
`checkpw : String → String → Bool` (presented password against stored
hash).  Each operation is a pure function from the table state (plus the
current time) to its return value and the successor state, transcribed
statement by statement from the Python source.
-/

namespace CensusGUI

/-! ## Throttle tables (`security_manager.py`) -/

/-- A row of `throttle_rules`: per-endpoint rate-limit configuration. -/
structure ThrottleRule where
  max_attempts : Nat
  time_window : Int
  lockout_duration : Int
deriving DecidableEq

/-- A row of `throttle_log`: one recorded throttle decision. -/
structure ThrottleLogEntry where
  ip_address : String
  endpoint : String
  timestamp : Int
  is_blocked : Bool
deriving DecidableEq

/-- The throttle subsystem state: the `throttle_rules` table (keyed by
endpoint) and the `throttle_log` table. -/
structure ThrottleState where
  rules : List (String × ThrottleRule)
  log : List ThrottleLogEntry
deriving DecidableEq

/-- `SELECT max_attempts, time_window, lockout_duration FROM throttle_rules
WHERE endpoint = %s` with `fetchone`. -/
def lookupRule (rules : List (String × ThrottleRule)) (endpoint : String) :
    Option ThrottleRule :=
  (rules.find? (fun p => p.1 == endpoint)).map (·.2)

/-- The `WHERE` clause of the window queries: rows for `(ip, endpoint)`
with `timestamp > CURRENT_TIMESTAMP - interval '1 second' * time_window`. -/
def inWindow (ip endpoint : String) (now window : Int) (e : ThrottleLogEntry) :
    Bool :=
  e.ip_address == ip && e.endpoint == endpoint &&
    decide (e.timestamp > now - window)

/-- The `throttle_log` rows inside the trailing window. -/
def windowEntries (log : List ThrottleLogEntry) (ip endpoint : String)
    (now window : Int) : List ThrottleLogEntry :=
  log.filter (inWindow ip endpoint now window)

/-- `SELECT COUNT(*) FROM throttle_log WHERE ...` over the trailing window. -/
def windowCount (log : List ThrottleLogEntry) (ip endpoint : String)
    (now window : Int) : Nat :=
  (windowEntries log ip endpoint now window).length

/-- `MIN(timestamp)` over a list of `throttle_log` rows (`NULL` on empty). -/
def minTimestamp : List ThrottleLogEntry → Option Int
  | [] => none
  | e :: es => some ((es.map (·.timestamp)).foldl min e.timestamp)

/-- `SecurityManager.check_rate_limit` (`security_manager.py:24-79`), the
non-failing execution: look up the rule for the endpoint (none → allow,
nothing logged); otherwise count window entries, block iff
`count >= max_attempts`, and append one log row recording the decision. -/
def check_rate_limit (s : ThrottleState) (now : Int) (ip endpoint : String) :
    Bool × ThrottleState :=
  match lookupRule s.rules endpoint with
  | none => (true, s)
  | some rule =>
    let attempt_count := windowCount s.log ip endpoint now rule.time_window
    let is_blocked : Bool := decide (attempt_count ≥ rule.max_attempts)
    (!is_blocked, { s with log := s.log ++ [⟨ip, endpoint, now, is_blocked⟩] })

/-- The three storage operations `check_rate_limit` executes, for the
fail-closed analysis of its `try/except` wrapper. -/
inductive ThrottleStep
  | selectRule
  | countAttempts
  | insertLog
deriving DecidableEq

/-- `SecurityManager.check_rate_limit` including the `except` handler
(`security_manager.py:81-83`): `fails` says which storage operations raise.
A raised exception aborts (rolling back the enclosing transaction, so the
state is unchanged) and the handler returns `False`. -/
def check_rate_limit_f (fails : ThrottleStep → Bool) (s : ThrottleState)
    (now : Int) (ip endpoint : String) : Bool × ThrottleState :=
  if fails .selectRule then (false, s)
  else
    match lookupRule s.rules endpoint with
    | none => (true, s)
    | some rule =>
      if fails .countAttempts then (false, s)
      else
        let attempt_count := windowCount s.log ip endpoint now rule.time_window
        let is_blocked : Bool := decide (attempt_count ≥ rule.max_attempts)
        if fails .insertLog then (false, s)
        else (!is_blocked,
          { s with log := s.log ++ [⟨ip, endpoint, now, is_blocked⟩] })

/-- `SecurityManager.get_rate_limit_status` (`security_manager.py:85-131`):
read-only status query.  No rule → `(-1, -1)`; otherwise
`(max(0, max_attempts - count), max(0, time_window - elapsed))` where
`elapsed` is `now - MIN(timestamp)` over window rows (`0` when the
window is empty, from `result[1] or 0`). -/
def get_rate_limit_status (s : ThrottleState) (now : Int) (ip endpoint : String) :
    (Int × Int) × ThrottleState :=
  match lookupRule s.rules endpoint with
  | none => ((-1, -1), s)
  | some rule =>
    let entries := windowEntries s.log ip endpoint now rule.time_window
    let current_attempts : Int := entries.length
    let elapsed_seconds : Int :=
      match minTimestamp entries with
      | none => 0
      | some m => now - m
    ((max 0 ((rule.max_attempts : Int) - current_attempts),
      max 0 (rule.time_window - elapsed_seconds)), s)

/-! ## User table (`user_manager.py`) -/

/-- A row of `users` (the columns the verification and activation paths
touch). -/
structure User where
  user_id : Nat
  username : String
  password_hash : String
  is_active : Bool
  failed_login_attempts : Nat
  account_locked_until : Option Int
  last_failed_login : Option Int
  last_login : Option Int
  activation_token : Option String
  activation_token_created_at : Option Int
deriving DecidableEq

/-- The columns `verify_user` selects and returns on success
(`SELECT user_id, username, password_hash, is_active,
failed_login_attempts, account_locked_until`). -/
structure UserRow where
  user_id : Nat
  username : String
  password_hash : String
  is_active : Bool
  failed_login_attempts : Nat
  account_locked_until : Option Int
deriving DecidableEq

/-- The row `verify_user` fetched, as returned by `dict(user)` (the values
read before any update). -/
def User.row (u : User) : UserRow :=
  ⟨u.user_id, u.username, u.password_hash, u.is_active,
   u.failed_login_attempts, u.account_locked_until⟩

/-- A row of `login_history`, written by `_log_login_attempt`. -/
structure LoginHistoryEntry where
  user_id : Option Nat
  ip_address : Option String
  user_agent : Option String
  login_successful : Bool
  failure_reason : Option String
deriving DecidableEq

/-- The user subsystem state: the `users` table and the `login_history`
table. -/
structure UserState where
  users : List User
  login_history : List LoginHistoryEntry
deriving DecidableEq

/-- `SELECT ... FROM users WHERE username = %s` with `fetchone`. -/
def findByUsername (users : List User) (username : String) : Option User :=
  users.find? (fun u => u.username == username)

/-- The lockout test of `verify_user` (`user_manager.py:111`):
`account_locked_until and account_locked_until > datetime.now()`
(`NULL` is falsy). -/
def isLocked (u : User) (now : Int) : Bool :=
  match u.account_locked_until with
  | some t => decide (t > now)
  | none => false

/-- `UPDATE users SET ... WHERE user_id = %s`: apply `f` to every row with
the given id. -/
def updateWhere (users : List User) (uid : Nat) (f : User → User) :
    List User :=
  users.map (fun v => if v.user_id == uid then f v else v)

/-- `UserManager._log_login_attempt` (`user_manager.py:246-268`): append a
`login_history` row. -/
def logAttempt (s : UserState) (uid : Option Nat) (ip ua : Option String)
    (ok : Bool) (reason : Option String) : UserState :=
  { s with login_history := s.login_history ++ [⟨uid, ip, ua, ok, reason⟩] }

/-- The `SET` clause of the failed-login `UPDATE` (`user_manager.py:122-132`):
increment `failed_login_attempts`, stamp `last_failed_login`, and set
`account_locked_until = now + 15 minutes` when the post-increment counter
is `>= 5` (else keep it). -/
def failedUpdate (now : Int) (v : User) : User :=
  { v with
    failed_login_attempts := v.failed_login_attempts + 1,
    last_failed_login := some now,
    account_locked_until :=
      if v.failed_login_attempts + 1 ≥ 5 then some (now + 15 * 60)
      else v.account_locked_until }

/-- The `SET` clause of the successful-login `UPDATE`
(`user_manager.py:149-155`). -/
def successUpdate (now : Int) (v : User) : User :=
  { v with
    failed_login_attempts := 0,
    account_locked_until := none,
    last_login := some now }

/-- `UserManager.verify_user` (`user_manager.py:80-165`), parameterised by
the bcrypt check `checkpw password hash`. -/
def verify_user (checkpw : String → String → Bool) (s : UserState) (now : Int)
    (username password : String) (ip ua : Option String) :
    Option UserRow × UserState :=
  match findByUsername s.users username with
  | none =>
    (none, logAttempt s none ip ua false (some "User not found"))
  | some u =>
    if isLocked u now then
      (none, logAttempt s (some u.user_id) ip ua false (some "Account locked"))
    else if !checkpw password u.password_hash then
      (none, logAttempt
        { s with users := updateWhere s.users u.user_id (failedUpdate now) }
        (some u.user_id) ip ua false (some "Invalid password"))
    else if !u.is_active then
      (none, logAttempt s (some u.user_id) ip ua false
        (some "Account not activated"))
    else
      (some u.row, logAttempt
        { s with users := updateWhere s.users u.user_id (successUpdate now) }
        (some u.user_id) ip ua true none)

/-- The `SET` clause of the activation `UPDATE` (`user_manager.py:231-237`). -/
def activateUpdate (v : User) : User :=
  { v with
    is_active := true,
    activation_token := none,
    activation_token_created_at := none }

/-- `UserManager.activate_user` (`user_manager.py:192-244`): consume an
activation token.  A row whose `activation_token_created_at` is `NULL`
makes `token_created_at.tzinfo` raise, so the handler returns `False`
with no state change. -/
def activate_user (s : UserState) (now : Int) (token : String) :
    Bool × UserState :=
  match s.users.find? (fun u => u.activation_token == some token) with
  | none => (false, s)
  | some u =>
    if u.is_active then (true, s)
    else
      match u.activation_token_created_at with
      | none => (false, s)
      | some created =>
        if decide (created < now - 86400) then (false, s)
        else (true,
          { s with users := updateWhere s.users u.user_id activateUpdate })

/-! ## Session table (`session_manager.py`) -/

/-- A row of `user_sessions`. -/
structure Session where
  session_id : Nat
  user_id : Nat
  session_token : String
  ip_address : String
  user_agent : String
  expires_at : Int
  is_active : Bool
deriving DecidableEq

/-- The `WHERE` clause of `verify_session` (`session_manager.py:84-92`). -/
def sessionMatches (now : Int) (token ip ua : String) (s : Session) : Bool :=
  s.session_token == token && s.ip_address == ip && s.user_agent == ua &&
    decide (s.expires_at > now) && s.is_active

/-- `SessionManager.verify_session` (`session_manager.py:63-97`). -/
def verify_session (sessions : List Session) (now : Int) (token ip ua : String) :
    Option Nat :=
  (sessions.find? (sessionMatches now token ip ua)).map (·.user_id)

/-- `SessionManager.invalidate_session` (`session_manager.py:99-121`):
`UPDATE user_sessions SET is_active = FALSE WHERE session_token = %s
RETURNING session_id`; returns whether a row matched. -/
def invalidate_session (sessions : List Session) (token : String) :
    Bool × List Session :=
  (sessions.any (fun s => s.session_token == token),
   sessions.map (fun s =>
     if s.session_token == token then { s with is_active := false } else s))

/-- Concrete bcrypt model used by witnesses: the hash verifies exactly the
password it stores. -/
def cpEq (password hash : String) : Bool := password == hash

/-! ## Theorems -/

/-- C1: for every call `check_rate_limit(client_id, endpoint)`: if no
`ThrottleRule` exists for the endpoint, the call returns `true` and no
`ThrottleLogEntry` is written; if a rule exists, the call returns `false`
iff the count of log rows for `(client_id, endpoint)` inside the trailing
`time_window` is `>= max_attempts`, and exactly one log row recording the
decision is appended regardless of the outcome. -/
theorem check_rate_limit_correct (s : ThrottleState) (now : Int)
    (ip endpoint : String) :
    (lookupRule s.rules endpoint = none →
      check_rate_limit s now ip endpoint = (true, s)) ∧
    (∀ rule, lookupRule s.rules endpoint = some rule →
      ((check_rate_limit s now ip endpoint).1 = false ↔
        rule.max_attempts ≤ windowCount s.log ip endpoint now rule.time_window) ∧
      (check_rate_limit s now ip endpoint).2.rules = s.rules ∧
      (check_rate_limit s now ip endpoint).2.log = s.log ++
        [⟨ip, endpoint, now,
          decide (rule.max_attempts ≤
            windowCount s.log ip endpoint now rule.time_window)⟩]) := by
  constructor
  · intro h
    simp [check_rate_limit, h]
  · intro rule h
    simp [check_rate_limit, h, GE.ge]

/-- Witness for C1: a state with no rule for the endpoint is allowed with no
write; a `(max_attempts = 2)` rule with two fresh log rows blocks. -/
theorem check_rate_limit_correct_witness :
    check_rate_limit ⟨[], []⟩ 0 "a" "login" = (true, ⟨[], []⟩) ∧
    ((check_rate_limit
        ⟨[("login", ⟨2, 60, 300⟩)],
         [⟨"a", "login", 95, false⟩, ⟨"a", "login", 96, false⟩]⟩
        100 "a" "login").1 = false ↔
      (2 : Nat) ≤ windowCount
        [⟨"a", "login", 95, false⟩, ⟨"a", "login", 96, false⟩]
        "a" "login" 100 60) :=
  ⟨(check_rate_limit_correct ⟨[], []⟩ 0 "a" "login").1 (by decide),
   ((check_rate_limit_correct
      ⟨[("login", ⟨2, 60, 300⟩)],
       [⟨"a", "login", 95, false⟩, ⟨"a", "login", 96, false⟩]⟩
      100 "a" "login").2 ⟨2, 60, 300⟩ (by decide)).1⟩

/-- C8: `get_rate_limit_status` mutates no stored state; it returns the
`(-1, -1)` sentinel when no rule is configured for the endpoint, and
otherwise `(max 0 (max_attempts - count), max 0 (time_window - elapsed))`
where `elapsed` is measured from the oldest window entry. -/
theorem get_rate_limit_status_correct (s : ThrottleState) (now : Int)
    (ip endpoint : String) :
    (get_rate_limit_status s now ip endpoint).2 = s ∧
    (lookupRule s.rules endpoint = none →
      (get_rate_limit_status s now ip endpoint).1 = (-1, -1)) ∧
    (∀ rule m, lookupRule s.rules endpoint = some rule →
      minTimestamp (windowEntries s.log ip endpoint now rule.time_window) =
        some m →
      (get_rate_limit_status s now ip endpoint).1 =
        (max 0 ((rule.max_attempts : Int) -
           windowCount s.log ip endpoint now rule.time_window),
         max 0 (rule.time_window - (now - m)))) := by
  refine ⟨?_, ?_, ?_⟩
  · unfold get_rate_limit_status
    cases h : lookupRule s.rules endpoint <;> simp
  · intro h
    simp [get_rate_limit_status, h]
  · intro rule m h hm
    simp [get_rate_limit_status, h, hm, windowCount]

/-- Witness for C8: sentinel on an unconfigured endpoint; formula on a
window holding one entry, with the state returned untouched. -/
theorem get_rate_limit_status_correct_witness :
    (get_rate_limit_status ⟨[], []⟩ 0 "a" "login").1 = (-1, -1) ∧
    (get_rate_limit_status
       ⟨[("login", ⟨5, 60, 300⟩)], [⟨"a", "login", 80, false⟩]⟩
       100 "a" "login").1 =
      (max 0 ((5 : Int) -
         windowCount [⟨"a", "login", 80, false⟩] "a" "login" 100 60),
       max 0 ((60 : Int) - (100 - 80))) ∧
    (get_rate_limit_status
       ⟨[("login", ⟨5, 60, 300⟩)], [⟨"a", "login", 80, false⟩]⟩
       100 "a" "login").2 =
      ⟨[("login", ⟨5, 60, 300⟩)], [⟨"a", "login", 80, false⟩]⟩ :=
  ⟨(get_rate_limit_status_correct ⟨[], []⟩ 0 "a" "login").2.1 (by decide),
   (get_rate_limit_status_correct
      ⟨[("login", ⟨5, 60, 300⟩)], [⟨"a", "login", 80, false⟩]⟩
      100 "a" "login").2.2 ⟨5, 60, 300⟩ 80 (by decide) (by decide),
   (get_rate_limit_status_correct
      ⟨[("login", ⟨5, 60, 300⟩)], [⟨"a", "login", 80, false⟩]⟩
      100 "a" "login").1⟩

/-- C9: if any storage operation executed during the throttle check fails,
`check_rate_limit` fails closed: it returns `false` (request denied) with
the transaction rolled back, rather than propagating the error or allowing
the request. -/
theorem check_rate_limit_fail_closed (fails : ThrottleStep → Bool)
    (s : ThrottleState) (now : Int) (ip endpoint : String) :
    (fails .selectRule = true →
      check_rate_limit_f fails s now ip endpoint = (false, s)) ∧
    (∀ rule, fails .selectRule = false →
      lookupRule s.rules endpoint = some rule → fails .countAttempts = true →
      check_rate_limit_f fails s now ip endpoint = (false, s)) ∧
    (∀ rule, fails .selectRule = false →
      lookupRule s.rules endpoint = some rule → fails .countAttempts = false →
      fails .insertLog = true →
      check_rate_limit_f fails s now ip endpoint = (false, s)) := by
  refine ⟨?_, ?_, ?_⟩
  · intro h
    simp [check_rate_limit_f, h]
  · intro rule h1 h2 h3
    simp [check_rate_limit_f, h1, h2, h3]
  · intro rule h1 h2 h3 h4
    simp [check_rate_limit_f, h1, h2, h3, h4]

/-- Witness for C9: each of the three storage steps failing on a configured
endpoint yields a denial with the state unchanged. -/
theorem check_rate_limit_fail_closed_witness :
    check_rate_limit_f (fun _ => true)
      ⟨[("b", ⟨2, 60, 300⟩)], []⟩ 0 "a" "b" =
      (false, ⟨[("b", ⟨2, 60, 300⟩)], []⟩) ∧
    check_rate_limit_f
      (fun st => match st with | ThrottleStep.selectRule => false | _ => true)
      ⟨[("b", ⟨2, 60, 300⟩)], []⟩ 0 "a" "b" =
      (false, ⟨[("b", ⟨2, 60, 300⟩)], []⟩) ∧
    check_rate_limit_f
      (fun st => match st with | ThrottleStep.insertLog => true | _ => false)
      ⟨[("b", ⟨2, 60, 300⟩)], []⟩ 0 "a" "b" =
      (false, ⟨[("b", ⟨2, 60, 300⟩)], []⟩) :=
  ⟨(check_rate_limit_fail_closed (fun _ => true)
      ⟨[("b", ⟨2, 60, 300⟩)], []⟩ 0 "a" "b").1 rfl,
   (check_rate_limit_fail_closed
      (fun st => match st with | ThrottleStep.selectRule => false | _ => true)
      ⟨[("b", ⟨2, 60, 300⟩)], []⟩ 0 "a" "b").2.1
      ⟨2, 60, 300⟩ rfl (by decide) rfl,
   (check_rate_limit_fail_closed
      (fun st => match st with | ThrottleStep.insertLog => true | _ => false)
      ⟨[("b", ⟨2, 60, 300⟩)], []⟩ 0 "a" "b").2.2
      ⟨2, 60, 300⟩ rfl (by decide) rfl rfl⟩

/-- C2: for every account whose stored `account_locked_until` is strictly in
the future, `verify_user` returns the locked failure (`none`) without
checking the password (for every candidate password and password checker)
and without touching any account field; only a history entry with reason
"Account locked" is appended. -/
theorem verify_user_locked (checkpw : String → String → Bool) (s : UserState)
    (now : Int) (username password : String) (ip ua : Option String)
    (u : User) (t : Int)
    (hu : findByUsername s.users username = some u)
    (hl : u.account_locked_until = some t) (ht : now < t) :
    verify_user checkpw s now username password ip ua =
      (none, { s with login_history := s.login_history ++
        [⟨some u.user_id, ip, ua, false, some "Account locked"⟩] }) := by
  have hlk : isLocked u now = true := by
    simp [isLocked, hl]
    omega
  simp [verify_user, hu, hlk, logAttempt]

/-- Witness for C2: a locked account rejects even the correct password, with
the user row left unchanged. -/
theorem verify_user_locked_witness :
    verify_user cpEq
      ⟨[⟨1, "alice", "secret", true, 0, some 2000, none, none, none, none⟩],
       []⟩ 1000 "alice" "secret" none none =
      (none,
       ⟨[⟨1, "alice", "secret", true, 0, some 2000, none, none, none, none⟩],
        [⟨some 1, none, none, false, some "Account locked"⟩]⟩) :=
  verify_user_locked cpEq
    ⟨[⟨1, "alice", "secret", true, 0, some 2000, none, none, none, none⟩], []⟩
    1000 "alice" "secret" none none
    ⟨1, "alice", "secret", true, 0, some 2000, none, none, none, none⟩
    2000 (by decide) rfl (by decide)

/-- C3 counterexample: a user with `failed_login_attempts = 5` and an
already-expired lock (`account_locked_until = some 0`, `now = 1000`) fails a
password check; the post-increment counter is `6 ≠ 5`, yet
`account_locked_until` is modified (from `some 0` to `some 1900`),
contradicting "for any other post-increment value `account_locked_until` is
not modified". -/
theorem verify_user_lockout_counterexample :
    (5 : Nat) + 1 ≠ 5 ∧
    isLocked ⟨1, "bob", "pw", true, 5, some 0, none, none, none, none⟩ 1000 =
      false ∧
    (verify_user cpEq
        ⟨[⟨1, "bob", "pw", true, 5, some 0, none, none, none, none⟩], []⟩
        1000 "bob" "wrong" none none).2.users =
      [⟨1, "bob", "pw", true, 6, some 1900, some 1000, none, none, none⟩] ∧
    some (1900 : Int) ≠ some (0 : Int) := by decide

/-- C3 (amended): for every existing unlocked account, a verify call with a
non-matching password increments `failed_login_attempts` by one and records
`last_failed_login = now`; `account_locked_until` is set to `now + 15`
minutes whenever the post-increment counter is `>= 5` (not only at exactly
5), and is left unchanged otherwise. -/
theorem verify_user_wrong_password (checkpw : String → String → Bool)
    (s : UserState) (now : Int) (username password : String)
    (ip ua : Option String) (u : User)
    (hu : findByUsername s.users username = some u)
    (hnl : isLocked u now = false)
    (hpw : checkpw password u.password_hash = false) :
    verify_user checkpw s now username password ip ua =
      (none,
       { users := s.users.map (fun v =>
           if v.user_id == u.user_id then
             { v with
               failed_login_attempts := v.failed_login_attempts + 1,
               last_failed_login := some now,
               account_locked_until :=
                 if v.failed_login_attempts + 1 ≥ 5 then some (now + 15 * 60)
                 else v.account_locked_until }
           else v),
         login_history := s.login_history ++
           [⟨some u.user_id, ip, ua, false, some "Invalid password"⟩] }) := by
  simp [verify_user, hu, hnl, hpw, updateWhere, failedUpdate, logAttempt]

/-- Witness for C3 (amended): a first wrong password bumps the counter to 1
and leaves `account_locked_until` untouched. -/
theorem verify_user_wrong_password_witness :
    verify_user cpEq
      ⟨[⟨1, "bob", "pw", true, 0, none, none, none, none, none⟩], []⟩
      50 "bob" "x" (some "ip") (some "ua") =
      (none,
       ⟨[⟨1, "bob", "pw", true, 1, none, some 50, none, none, none⟩],
        [⟨some 1, some "ip", some "ua", false, some "Invalid password"⟩]⟩) :=
  verify_user_wrong_password cpEq
    ⟨[⟨1, "bob", "pw", true, 0, none, none, none, none, none⟩], []⟩
    50 "bob" "x" (some "ip") (some "ua")
    ⟨1, "bob", "pw", true, 0, none, none, none, none, none⟩
    rfl rfl rfl

/-- C4: for every active account whose lock is absent or expired
(`now >= account_locked_until`), a verify call with the matching password
succeeds: it returns the fetched account summary, resets
`failed_login_attempts` to 0, clears `account_locked_until`, sets
`last_login = now`, and appends a successful history entry; in particular
an expired lock does not block the call. -/
theorem verify_user_success (checkpw : String → String → Bool)
    (s : UserState) (now : Int) (username password : String)
    (ip ua : Option String) (u : User)
    (hu : findByUsername s.users username = some u)
    (hnl : u.account_locked_until = none ∨
      ∃ t, u.account_locked_until = some t ∧ t ≤ now)
    (hpw : checkpw password u.password_hash = true)
    (ha : u.is_active = true) :
    verify_user checkpw s now username password ip ua =
      (some u.row,
       { users := s.users.map (fun v =>
           if v.user_id == u.user_id then
             { v with
               failed_login_attempts := 0,
               account_locked_until := none,
               last_login := some now }
           else v),
         login_history := s.login_history ++
           [⟨some u.user_id, ip, ua, true, none⟩] }) := by
  have hlk : isLocked u now = false := by
    rcases hnl with h | ⟨t, h, hle⟩
    · simp [isLocked, h]
    · simp [isLocked, h]
      omega
  simp [verify_user, hu, hlk, hpw, ha, updateWhere, successUpdate, logAttempt]

/-- Witness for C4: a correct password on an account whose lock expired at
`t = 900 <= now = 1000` succeeds, resets the counter from 5 to 0, and
clears the lock. -/
theorem verify_user_success_witness :
    verify_user cpEq
      ⟨[⟨1, "carol", "s3cret", true, 5, some 900, none, none, none, none⟩],
       []⟩ 1000 "carol" "s3cret" (some "ip") none =
      (some ⟨1, "carol", "s3cret", true, 5, some 900⟩,
       ⟨[⟨1, "carol", "s3cret", true, 0, none, none, some 1000, none, none⟩],
        [⟨some 1, some "ip", none, true, none⟩]⟩) :=
  verify_user_success cpEq
    ⟨[⟨1, "carol", "s3cret", true, 5, some 900, none, none, none, none⟩], []⟩
    1000 "carol" "s3cret" (some "ip") none
    ⟨1, "carol", "s3cret", true, 5, some 900, none, none, none, none⟩
    rfl (Or.inr ⟨900, rfl, by decide⟩) rfl rfl

/-- C7: `activate_user` returns `false` when no account holds the token;
`true` with no state change when the holder is already active; `false` with
no state change (account still inactive) when the token is older than 24
hours; and otherwise activates the account and clears both token fields. -/
theorem activate_user_correct (s : UserState) (now : Int) (token : String) :
    (s.users.find? (fun w => w.activation_token == some token) = none →
      activate_user s now token = (false, s)) ∧
    (∀ u, s.users.find? (fun w => w.activation_token == some token) = some u →
      (u.is_active = true → activate_user s now token = (true, s)) ∧
      (∀ c, u.is_active = false → u.activation_token_created_at = some c →
        (c < now - 86400 → activate_user s now token = (false, s)) ∧
        (now - 86400 ≤ c → activate_user s now token =
          (true, { s with users := s.users.map (fun v =>
             if v.user_id == u.user_id then
               { v with
                 is_active := true,
                 activation_token := none,
                 activation_token_created_at := none }
             else v) })))) := by
  refine ⟨?_, ?_⟩
  · intro h
    simp [activate_user, h]
  · intro u hu
    refine ⟨?_, ?_⟩
    · intro ha
      simp [activate_user, hu, ha]
    · intro c ha hc
      refine ⟨?_, ?_⟩
      · intro hexp
        simp [activate_user, hu, ha, hc, hexp]
      · intro hfresh
        have hne : ¬(c < now - 86400) := by omega
        simp [activate_user, hu, ha, hc, hne, updateWhere, activateUpdate]

/-- Witness for C7: all four branches at concrete states — unknown token,
already-active holder, expired token (age > 24h), and a fresh token that
activates the account and clears the token fields. -/
theorem activate_user_correct_witness :
    activate_user ⟨[], []⟩ 0 "t" = (false, ⟨[], []⟩) ∧
    activate_user
      ⟨[⟨1, "d", "h", true, 0, none, none, none, some "t", some 0⟩], []⟩
      1000 "t" =
      (true, ⟨[⟨1, "d", "h", true, 0, none, none, none, some "t", some 0⟩],
        []⟩) ∧
    activate_user
      ⟨[⟨1, "d", "h", false, 0, none, none, none, some "t", some 0⟩], []⟩
      100000 "t" =
      (false, ⟨[⟨1, "d", "h", false, 0, none, none, none, some "t", some 0⟩],
        []⟩) ∧
    activate_user
      ⟨[⟨1, "d", "h", false, 0, none, none, none, some "t", some 0⟩], []⟩
      1000 "t" =
      (true, ⟨[⟨1, "d", "h", true, 0, none, none, none, none, none⟩], []⟩) :=
  ⟨(activate_user_correct ⟨[], []⟩ 0 "t").1 rfl,
   ((activate_user_correct
      ⟨[⟨1, "d", "h", true, 0, none, none, none, some "t", some 0⟩], []⟩
      1000 "t").2
      ⟨1, "d", "h", true, 0, none, none, none, some "t", some 0⟩ rfl).1 rfl,
   (((activate_user_correct
      ⟨[⟨1, "d", "h", false, 0, none, none, none, some "t", some 0⟩], []⟩
      100000 "t").2
      ⟨1, "d", "h", false, 0, none, none, none, some "t", some 0⟩ rfl).2
      0 rfl rfl).1 (by decide),
   (((activate_user_correct
      ⟨[⟨1, "d", "h", false, 0, none, none, none, some "t", some 0⟩], []⟩
      1000 "t").2
      ⟨1, "d", "h", false, 0, none, none, none, some "t", some 0⟩ rfl).2
      0 rfl rfl).2 (by decide)⟩

/-- C10: every failure branch of `verify_user` — username not found, account
locked, wrong password, account inactive — returns the same value `none`,
carrying no account data; the specific reason is recorded only in the
appended login-history entry. -/
theorem verify_user_failure_uniform (checkpw : String → String → Bool)
    (s : UserState) (now : Int) (username password : String)
    (ip ua : Option String) :
    (findByUsername s.users username = none →
      (verify_user checkpw s now username password ip ua).1 = none ∧
      (verify_user checkpw s now username password ip ua).2.login_history =
        s.login_history ++ [⟨none, ip, ua, false, some "User not found"⟩]) ∧
    (∀ u, findByUsername s.users username = some u →
      (isLocked u now = true →
        (verify_user checkpw s now username password ip ua).1 = none ∧
        (verify_user checkpw s now username password ip ua).2.login_history =
          s.login_history ++
            [⟨some u.user_id, ip, ua, false, some "Account locked"⟩]) ∧
      (isLocked u now = false → checkpw password u.password_hash = false →
        (verify_user checkpw s now username password ip ua).1 = none ∧
        (verify_user checkpw s now username password ip ua).2.login_history =
          s.login_history ++
            [⟨some u.user_id, ip, ua, false, some "Invalid password"⟩]) ∧
      (isLocked u now = false → checkpw password u.password_hash = true →
        u.is_active = false →
        (verify_user checkpw s now username password ip ua).1 = none ∧
        (verify_user checkpw s now username password ip ua).2.login_history =
          s.login_history ++
            [⟨some u.user_id, ip, ua, false,
              some "Account not activated"⟩])) := by
  refine ⟨?_, ?_⟩
  · intro h
    simp [verify_user, h, logAttempt]
  · intro u hu
    refine ⟨?_, ?_, ?_⟩
    · intro hlk
      simp [verify_user, hu, hlk, logAttempt]
    · intro hlk hpw
      simp [verify_user, hu, hlk, hpw, logAttempt]
    · intro hlk hpw ha
      simp [verify_user, hu, hlk, hpw, ha, logAttempt]

/-- Witness for C10: all four failure branches at concrete states return
`none` and log their distinct reasons. -/
theorem verify_user_failure_uniform_witness :
    ((verify_user cpEq ⟨[], []⟩ 0 "nobody" "p" none none).1 = none ∧
      (verify_user cpEq ⟨[], []⟩ 0 "nobody" "p" none none).2.login_history =
        [⟨none, none, none, false, some "User not found"⟩]) ∧
    ((verify_user cpEq
        ⟨[⟨1, "e", "h", true, 0, some 10, none, none, none, none⟩], []⟩
        5 "e" "h" none none).1 = none ∧
      (verify_user cpEq
        ⟨[⟨1, "e", "h", true, 0, some 10, none, none, none, none⟩], []⟩
        5 "e" "h" none none).2.login_history =
        [⟨some 1, none, none, false, some "Account locked"⟩]) ∧
    ((verify_user cpEq
        ⟨[⟨1, "e", "h", true, 0, none, none, none, none, none⟩], []⟩
        5 "e" "bad" none none).1 = none ∧
      (verify_user cpEq
        ⟨[⟨1, "e", "h", true, 0, none, none, none, none, none⟩], []⟩
        5 "e" "bad" none none).2.login_history =
        [⟨some 1, none, none, false, some "Invalid password"⟩]) ∧
    ((verify_user cpEq
        ⟨[⟨1, "e", "h", false, 0, none, none, none, none, none⟩], []⟩
        5 "e" "h" none none).1 = none ∧
      (verify_user cpEq
        ⟨[⟨1, "e", "h", false, 0, none, none, none, none, none⟩], []⟩
        5 "e" "h" none none).2.login_history =
        [⟨some 1, none, none, false, some "Account not activated"⟩]) :=
  ⟨(verify_user_failure_uniform cpEq ⟨[], []⟩ 0 "nobody" "p" none none).1 rfl,
   ((verify_user_failure_uniform cpEq
      ⟨[⟨1, "e", "h", true, 0, some 10, none, none, none, none⟩], []⟩
      5 "e" "h" none none).2
      ⟨1, "e", "h", true, 0, some 10, none, none, none, none⟩ rfl).1 rfl,
   ((verify_user_failure_uniform cpEq
      ⟨[⟨1, "e", "h", true, 0, none, none, none, none, none⟩], []⟩
      5 "e" "bad" none none).2
      ⟨1, "e", "h", true, 0, none, none, none, none, none⟩ rfl).2.1 rfl rfl,
   ((verify_user_failure_uniform cpEq
      ⟨[⟨1, "e", "h", false, 0, none, none, none, none, none⟩], []⟩
      5 "e" "h" none none).2
      ⟨1, "e", "h", false, 0, none, none, none, none, none⟩ rfl).2.2 rfl rfl
      rfl⟩

/-- C5: `verify_session` returns a user id iff some stored session holds the
presented token, was created with exactly the presented ip and user agent,
is active, and expires strictly after `now`; any returned id belongs to such
a session.  Any mismatch — expiry, inactivity, or a changed fingerprint
component — yields `none`. -/
theorem verify_session_correct (sessions : List Session) (now : Int)
    (token ip ua : String) :
    ((verify_session sessions now token ip ua).isSome ↔
      ∃ sess ∈ sessions, sess.session_token = token ∧
        sess.ip_address = ip ∧ sess.user_agent = ua ∧
        now < sess.expires_at ∧ sess.is_active = true) ∧
    (∀ uid, verify_session sessions now token ip ua = some uid →
      ∃ sess ∈ sessions, sess.session_token = token ∧
        sess.ip_address = ip ∧ sess.user_agent = ua ∧
        now < sess.expires_at ∧ sess.is_active = true ∧
        sess.user_id = uid) := by
  constructor
  · rw [verify_session]
    cases h : sessions.find? (sessionMatches now token ip ua) with
    | none =>
      simp only [Option.map_none', Option.isSome_none, Bool.false_eq_true,
        false_iff]
      rintro ⟨sess, hmem, h1, h2, h3, h4, h5⟩
      have hnp := List.find?_eq_none.mp h sess hmem
      simp [sessionMatches, h1, h2, h3, h4, h5] at hnp
    | some sess =>
      simp only [Option.map_some', Option.isSome_some, true_iff]
      have hp := List.find?_some h
      have hm := List.mem_of_find?_eq_some h
      simp only [sessionMatches, Bool.and_eq_true, beq_iff_eq,
        decide_eq_true_eq] at hp
      exact ⟨sess, hm, hp.1.1.1.1, hp.1.1.1.2, hp.1.1.2, hp.1.2, hp.2⟩
  · intro uid huid
    rw [verify_session] at huid
    cases h : sessions.find? (sessionMatches now token ip ua) with
    | none =>
      rw [h] at huid
      simp at huid
    | some sess =>
      rw [h] at huid
      simp only [Option.map_some', Option.some.injEq] at huid
      have hp := List.find?_some h
      have hm := List.mem_of_find?_eq_some h
      simp only [sessionMatches, Bool.and_eq_true, beq_iff_eq,
        decide_eq_true_eq] at hp
      exact ⟨sess, hm, hp.1.1.1.1, hp.1.1.1.2, hp.1.1.2, hp.1.2, hp.2, huid⟩

/-- Witness for C5: a stored session `(tok, ip1, ua1)` verified with the
original fingerprint before expiry yields its owner, and the theorem
recovers the matching row; presenting a different ip or user agent yields
`none`. -/
theorem verify_session_correct_witness :
    (∃ sess ∈ ([⟨1, 7, "tok", "ip1", "ua1", 100, true⟩] : List Session),
      sess.session_token = "tok" ∧ sess.ip_address = "ip1" ∧
      sess.user_agent = "ua1" ∧ (50 : Int) < sess.expires_at ∧
      sess.is_active = true ∧ sess.user_id = 7) ∧
    verify_session [⟨1, 7, "tok", "ip1", "ua1", 100, true⟩] 50 "tok" "ip2"
      "ua1" = none ∧
    verify_session [⟨1, 7, "tok", "ip1", "ua1", 100, true⟩] 50 "tok" "ip1"
      "ua2" = none :=
  ⟨(verify_session_correct [⟨1, 7, "tok", "ip1", "ua1", 100, true⟩] 50 "tok"
      "ip1" "ua1").2 7 (by decide), by decide, by decide⟩

/-- C6 counterexample: after a session with token "tok" is invalidated, a
second `invalidate_session "tok"` still returns `true` — the `UPDATE ...
RETURNING` matches the (now inactive) row regardless of `is_active` — and
not `false` as claimed. -/
theorem invalidate_session_counterexample :
    invalidate_session [⟨1, 7, "tok", "ip", "ua", 100, true⟩] "tok" =
      (true, [⟨1, 7, "tok", "ip", "ua", 100, false⟩]) ∧
    (invalidate_session
        (invalidate_session [⟨1, 7, "tok", "ip", "ua", 100, true⟩] "tok").2
        "tok").1 = true := by decide

/-- C6 (amended): `invalidate_session` sets `is_active = false` on every
session holding the token and returns whether a row with that token exists,
regardless of whether it was still active; a repeated call on the same
token is a state-level no-op (idempotent) but returns the same result as
the first call — `true` when the row exists, not `false`. -/
theorem invalidate_session_correct (sessions : List Session) (token : String) :
    (invalidate_session sessions token).1 =
      sessions.any (fun s => s.session_token == token) ∧
    (∀ sess ∈ (invalidate_session sessions token).2,
      sess.session_token = token → sess.is_active = false) ∧
    invalidate_session (invalidate_session sessions token).2 token =
      invalidate_session sessions token := by
  refine ⟨rfl, ?_, ?_⟩
  · intro sess hmem htok
    rw [invalidate_session] at hmem
    rcases List.mem_map.mp hmem with ⟨w, _, heq⟩
    by_cases hc : w.session_token == token
    · rw [if_pos hc] at heq
      subst heq
      rfl
    · rw [if_neg hc] at heq
      subst heq
      exact absurd (beq_iff_eq.mpr htok) hc
  · simp only [invalidate_session, List.map_map, List.any_map,
      Prod.mk.injEq]
    constructor
    · congr 1
      funext w
      by_cases hc : w.session_token == token <;> simp [Function.comp, hc]
    · congr 1
      funext w
      by_cases hc : w.session_token == token <;> simp [Function.comp, hc]

/-- Witness for C6 (amended): on a one-session store the invalidated row is
inactive, and re-invalidating reproduces the first call's result exactly. -/
theorem invalidate_session_correct_witness :
    (⟨1, 7, "tok", "ip", "ua", 100, false⟩ : Session).is_active = false ∧
    invalidate_session
      (invalidate_session [⟨1, 7, "tok", "ip", "ua", 100, true⟩] "tok").2
      "tok" =
      invalidate_session [⟨1, 7, "tok", "ip", "ua", 100, true⟩] "tok" :=
  ⟨(invalidate_session_correct [⟨1, 7, "tok", "ip", "ua", 100, true⟩]
      "tok").2.1 ⟨1, 7, "tok", "ip", "ua", 100, false⟩ (by decide) rfl,
   (invalidate_session_correct [⟨1, 7, "tok", "ip", "ua", 100, true⟩]
      "tok").2.2⟩

end CensusGUI
